import Mathlib

/-
Verification development for the rpi-lcd HD44780 LCD driver.

The definitions below are a shallow embedding of src/src/lib.rs.  Machine
bytes (u8) are modelled as Nat with explicit `% 256` where wrapping matters;
GPIO line levels are Bool (true = High); every bus interaction is recorded
as an event in a trace (`Ev`), with sleeps carrying their microsecond
duration.  Fallible operations return Option, and the construction model
distinguishes a returned error from a panic (`NewResult`).
-/

namespace RpiLcd

/-- Bus width, mirroring `enum Mode { Bits4 = 0x00, Bits8 = 0x10 }`. -/
inductive Mode
  | Bits4
  | Bits8
deriving DecidableEq

def Mode.toU8 : Mode → Nat
  | .Bits4 => 0x00
  | .Bits8 => 0x10

/-- Line count, mirroring `enum Lines { Lines1 = 0x00, Lines2 = 0x08 }`. -/
inductive Lines
  | Lines1
  | Lines2
deriving DecidableEq

def Lines.toU8 : Lines → Nat
  | .Lines1 => 0x00
  | .Lines2 => 0x08

/-- Character matrix, `enum CharSize { Dots5x8 = 0x00, Dots5x10 = 0x04 }`. -/
inductive CharSize
  | Dots5x8
  | Dots5x10
deriving DecidableEq

def CharSize.toU8 : CharSize → Nat
  | .Dots5x8 => 0x00
  | .Dots5x10 => 0x04

/-- Text direction, `enum DisplayEntryMode { Right = 0x00, Left = 0x02 }`. -/
inductive DisplayEntryMode
  | Right
  | Left
deriving DecidableEq

def DisplayEntryMode.toU8 : DisplayEntryMode → Nat
  | .Right => 0x00
  | .Left => 0x02

/-- Auto-shift, `enum DisplayEntryShiftMode { Increment = 0x01, Decrement = 0x00 }`. -/
inductive DisplayEntryShiftMode
  | Increment
  | Decrement
deriving DecidableEq

def DisplayEntryShiftMode.toU8 : DisplayEntryShiftMode → Nat
  | .Increment => 0x01
  | .Decrement => 0x00

/-- Display on or off, `enum DisplayState { On = 0x04, Off = 0x00 }`. -/
inductive DisplayState
  | On
  | Off
deriving DecidableEq

def DisplayState.toU8 : DisplayState → Nat
  | .On => 0x04
  | .Off => 0x00

/-- Cursor on or off, `enum CursorState { On = 0x02, Off = 0x00 }`. -/
inductive CursorState
  | On
  | Off
deriving DecidableEq

def CursorState.toU8 : CursorState → Nat
  | .On => 0x02
  | .Off => 0x00

/-- Blink on or off, `enum BlinkState { On = 0x01, Off = 0x00 }`. -/
inductive BlinkState
  | On
  | Off
deriving DecidableEq

def BlinkState.toU8 : BlinkState → Nat
  | .On => 0x01
  | .Off => 0x00

/-- Shift target, `enum MoveControl { Display = 0x08, Cursor = 0x00 }`. -/
inductive MoveControl
  | Display
  | Cursor
deriving DecidableEq

def MoveControl.toU8 : MoveControl → Nat
  | .Display => 0x08
  | .Cursor => 0x00

/-- Shift direction, `enum MoveDirection { Right = 0x04, Left = 0x00 }`. -/
inductive MoveDirection
  | Right
  | Left
deriving DecidableEq

def MoveDirection.toU8 : MoveDirection → Nat
  | .Right => 0x04
  | .Left => 0x00

/-- Mirrors `struct DisplayFunction { mode, lines, char_size }`. -/
structure DisplayFunction where
  mode : Mode
  lines : Lines
  char_size : CharSize
deriving DecidableEq

/-- Mirrors `struct DisplayControl { display, cursor, blink }`. -/
structure DisplayControl where
  display : DisplayState
  cursor : CursorState
  blink : BlinkState
deriving DecidableEq

/-- Mirrors `struct DisplayMode { entry_mode, entry_shift_mode }`. -/
structure DisplayMode where
  entry_mode : DisplayEntryMode
  entry_shift_mode : DisplayEntryShiftMode
deriving DecidableEq

-- Command byte encoders, mirroring `impl Command` (opcode OR state bits).
namespace Command

def clear_display : Nat := 0x01

def return_home : Nat := 0x02

def entry_mode_set (dm : DisplayMode) : Nat :=
  0x04 ||| dm.entry_mode.toU8 ||| dm.entry_shift_mode.toU8

def display_control (dc : DisplayControl) : Nat :=
  0x08 ||| dc.display.toU8 ||| dc.cursor.toU8 ||| dc.blink.toU8

def cursor_shift (what : MoveControl) (direction : MoveDirection) : Nat :=
  0x10 ||| what.toU8 ||| direction.toU8

def function_set (df : DisplayFunction) : Nat :=
  0x20 ||| df.mode.toU8 ||| df.lines.toU8 ||| df.char_size.toU8

def set_ddram_address (address : Nat) : Nat := 0x80 ||| address

def set_cgram_address (address : Nat) : Nat := 0x40 ||| address

end Command

/-- One observable bus event: a write to the RS, RW, ENABLE or a data line
(true = High), or a sleep of the given number of microseconds. -/
inductive Ev
  | wRS (level : Bool)
  | wRW (level : Bool)
  | wE (level : Bool)
  | wData (line : Nat) (level : Bool)
  | sleep (micros : Nat)
deriving DecidableEq

/-- Mirrors `GpioPinSignal::from`: 0 is Low, 1 is High (callers always mask
the argument with `& 0x01`, so the panic branch of the source is unreachable). -/
def GpioPinSignal.ofVal (value : Nat) : Bool := value == 1

/-- Mirrors `LCD::pulse_enable`: ENABLE low, 1 us, high, 1 us, low, 100 us. -/
def pulse_enable : List Ev :=
  [Ev.wE false, Ev.sleep 1, Ev.wE true, Ev.sleep 1, Ev.wE false, Ev.sleep 100]

/-- Mirrors `LCD::write_4_bits`: bit i of the value goes to data line 4+i
(for i = 0..3), then one enable pulse. -/
def write_4_bits (value : Nat) : List Ev :=
  ((List.range 4).map fun i =>
    Ev.wData (4 + i) (GpioPinSignal.ofVal ((value >>> i) &&& 0x01))) ++ pulse_enable

/-- Mirrors `LCD::write_8_bits`: bit i of the value goes to data line i
(for i = 0..7), then one enable pulse. -/
def write_8_bits (value : Nat) : List Ev :=
  ((List.range 8).map fun i =>
    Ev.wData i (GpioPinSignal.ofVal ((value >>> i) &&& 0x01))) ++ pulse_enable

/-- Raspberry Pi GPIO pin reference, mirroring `enum GpioPin`; `NONE` marks an
unconnected data line. -/
inductive GpioPin
  | NONE
  | P (n : Nat)
deriving DecidableEq

/-- Mirrors `struct Pins`: the pin-binding descriptor passed to `LCD::new`.
The `data` list holds the 8 data-pin entries d0..d7. -/
structure Pins where
  rs : GpioPin
  rw : Option GpioPin
  enable : GpioPin
  data : List GpioPin
deriving DecidableEq

/-- Mirrors `struct LCD` (the line handles are abstracted to whether an RW
line is bound; data-line handles are implicit in the bus-width mode). -/
structure LCD where
  rw_bound : Bool
  display_function : DisplayFunction
  display_control : DisplayControl
  display_mode : DisplayMode
  row_offsets : List Nat
  num_lines : Nat
deriving DecidableEq

namespace LCD

/-- Mirrors `LCD::send`: drive RS, drive RW low when bound, then one 8-bit
write (8-bit bus) or two nibble writes, high nibble first (4-bit bus). -/
def send (lcd : LCD) (value : Nat) (signal : Bool) : List Ev :=
  [Ev.wRS signal] ++ (if lcd.rw_bound then [Ev.wRW false] else []) ++
    (if lcd.display_function.mode = Mode.Bits8 then
      write_8_bits value
    else
      write_4_bits (value >>> 4) ++ write_4_bits value)

/-- Mirrors `LCD::command`: send with RS low. -/
def command (lcd : LCD) (value : Nat) : List Ev := lcd.send value false

/-- Mirrors `LCD::write`: send with RS high. -/
def write (lcd : LCD) (value : Nat) : List Ev := lcd.send value true

/-- Mirrors `LCD::new` without the fallible line requests: the initial state.
The bus mode is Bits8 exactly when data pin index 0 is not NONE. -/
def new (pins : Pins) : LCD :=
  { rw_bound := pins.rw.isSome
    display_function :=
      { mode := if pins.data.getD 0 GpioPin.NONE ≠ GpioPin.NONE then Mode.Bits8 else Mode.Bits4
        lines := Lines.Lines1
        char_size := CharSize.Dots5x8 }
    display_control :=
      { display := DisplayState.On, cursor := CursorState.Off, blink := BlinkState.Off }
    display_mode :=
      { entry_mode := DisplayEntryMode.Left
        entry_shift_mode := DisplayEntryShiftMode.Decrement }
    row_offsets := [0x00, 0x00, 0x00, 0x00]
    num_lines := 1 }

/-- Mirrors `LCD::display`: set the display field On, resend DisplayControl. -/
def display (lcd : LCD) : LCD × List Ev :=
  let lcd := { lcd with display_control := { lcd.display_control with display := DisplayState.On } }
  (lcd, lcd.command (Command.display_control lcd.display_control))

/-- Mirrors `LCD::no_display`. -/
def no_display (lcd : LCD) : LCD × List Ev :=
  let lcd := { lcd with display_control := { lcd.display_control with display := DisplayState.Off } }
  (lcd, lcd.command (Command.display_control lcd.display_control))

/-- Mirrors `LCD::cursor`. -/
def cursor (lcd : LCD) : LCD × List Ev :=
  let lcd := { lcd with display_control := { lcd.display_control with cursor := CursorState.On } }
  (lcd, lcd.command (Command.display_control lcd.display_control))

/-- Mirrors `LCD::no_cursor`. -/
def no_cursor (lcd : LCD) : LCD × List Ev :=
  let lcd := { lcd with display_control := { lcd.display_control with cursor := CursorState.Off } }
  (lcd, lcd.command (Command.display_control lcd.display_control))

/-- Mirrors `LCD::blink`. -/
def blink (lcd : LCD) : LCD × List Ev :=
  let lcd := { lcd with display_control := { lcd.display_control with blink := BlinkState.On } }
  (lcd, lcd.command (Command.display_control lcd.display_control))

/-- Mirrors `LCD::no_blink`. -/
def no_blink (lcd : LCD) : LCD × List Ev :=
  let lcd := { lcd with display_control := { lcd.display_control with blink := BlinkState.Off } }
  (lcd, lcd.command (Command.display_control lcd.display_control))

/-- Mirrors `LCD::left_to_right`. -/
def left_to_right (lcd : LCD) : LCD × List Ev :=
  let lcd := { lcd with display_mode := { lcd.display_mode with entry_mode := DisplayEntryMode.Left } }
  (lcd, lcd.command (Command.entry_mode_set lcd.display_mode))

/-- Mirrors `LCD::right_to_left`. -/
def right_to_left (lcd : LCD) : LCD × List Ev :=
  let lcd := { lcd with display_mode := { lcd.display_mode with entry_mode := DisplayEntryMode.Right } }
  (lcd, lcd.command (Command.entry_mode_set lcd.display_mode))

/-- Mirrors `LCD::autoscroll`. -/
def autoscroll (lcd : LCD) : LCD × List Ev :=
  let lcd := { lcd with display_mode := { lcd.display_mode with entry_shift_mode := DisplayEntryShiftMode.Increment } }
  (lcd, lcd.command (Command.entry_mode_set lcd.display_mode))

/-- Mirrors `LCD::no_autscroll` (source spelling). -/
def no_autscroll (lcd : LCD) : LCD × List Ev :=
  let lcd := { lcd with display_mode := { lcd.display_mode with entry_shift_mode := DisplayEntryShiftMode.Decrement } }
  (lcd, lcd.command (Command.entry_mode_set lcd.display_mode))

/-- Mirrors `LCD::clear`: ClearDisplay then a 2000 us delay. -/
def clear (lcd : LCD) : List Ev :=
  lcd.command Command.clear_display ++ [Ev.sleep 2000]

/-- Mirrors `LCD::home`: ReturnHome then a 2000 us delay. -/
def home (lcd : LCD) : List Ev :=
  lcd.command Command.return_home ++ [Ev.sleep 2000]

/-- Mirrors `LCD::scroll_display_left`. -/
def scroll_display_left (lcd : LCD) : List Ev :=
  lcd.command (Command.cursor_shift MoveControl.Display MoveDirection.Left)

/-- Mirrors `LCD::scroll_display_right`. -/
def scroll_display_right (lcd : LCD) : List Ev :=
  lcd.command (Command.cursor_shift MoveControl.Display MoveDirection.Right)

/-- Mirrors `LCD::print`: write each byte of the message in order. -/
def print (lcd : LCD) (msg : List Nat) : List Ev :=
  msg.flatMap lcd.write

/-- Mirrors `LCD::create_char`: mask the slot to 3 bits, send SetCGRAMAddress
at slot << 3, then write the bitmap bytes in array order. -/
def create_char (lcd : LCD) (location : Nat) (charmap : List Nat) : List Ev :=
  let location := location &&& 0x7
  lcd.command (Command.set_cgram_address (location <<< 3)) ++ charmap.flatMap lcd.write

/-- Mirrors `LCD::set_row_offsets`. -/
def set_row_offsets (lcd : LCD) (row1 row2 row3 row4 : Nat) : LCD :=
  { lcd with row_offsets := [row1, row2, row3, row4] }

/-- Mirrors `LCD::begin`: configure lines / row offsets / character matrix,
then run the datasheet power-on initialization sequence, returning the new
state and the emitted bus trace.  u8 arithmetic wraps with `% 256`. -/
def begin (lcd : LCD) (cols lines : Nat) (char_size : CharSize) : LCD × List Ev :=
  let df := lcd.display_function
  let df := if 1 < lines then { df with lines := Lines.Lines2 } else df
  let df := if char_size ≠ CharSize.Dots5x8 ∧ lines = 1 then
      { df with char_size := CharSize.Dots5x10 } else df
  let lcd := { lcd with display_function := df, num_lines := lines % 256 }
  let lcd := lcd.set_row_offsets 0x00 0x40 ((0x00 + cols) % 256) ((0x40 + cols) % 256)
  let pre : List Ev :=
    [Ev.sleep 50000, Ev.wRS false, Ev.wE false] ++
      (if lcd.rw_bound then [Ev.wRW false] else [])
  let negotiate : List Ev :=
    if lcd.display_function.mode = Mode.Bits4 then
      write_4_bits 0x03 ++ [Ev.sleep 45000] ++
      write_4_bits 0x03 ++ [Ev.sleep 4500] ++
      write_4_bits 0x03 ++ [Ev.sleep 150] ++
      write_4_bits 0x02
    else
      lcd.command (Command.function_set lcd.display_function) ++ [Ev.sleep 4500] ++
      lcd.command (Command.function_set lcd.display_function) ++ [Ev.sleep 150] ++
      lcd.command (Command.function_set lcd.display_function)
  let funcset := lcd.command (Command.function_set lcd.display_function)
  let lcd := { lcd with display_control :=
    { display := DisplayState.On, cursor := CursorState.Off, blink := BlinkState.Off } }
  let dres := lcd.display
  let lcd := dres.1
  let dctl := dres.2
  let clr := lcd.clear
  let lcd := { lcd with display_mode :=
    { entry_mode := DisplayEntryMode.Left
      entry_shift_mode := DisplayEntryShiftMode.Decrement } }
  let entry := lcd.command (Command.entry_mode_set lcd.display_mode)
  (lcd, pre ++ negotiate ++ funcset ++ dctl ++ clr ++ entry)

/-- Mirrors the row clamp inside `LCD::set_cursor`: first clamp against the
row-offset table length, then against `num_lines`, where `num_lines - 1` is
u8 wrapping subtraction, modelled as `(num_lines + 255) % 256`. -/
def clamp_row (lcd : LCD) (row : Nat) : Nat :=
  let max_rows := lcd.row_offsets.length
  let row := if max_rows ≤ row then max_rows - 1 else row
  if lcd.num_lines ≤ row then (lcd.num_lines + 255) % 256 else row

/-- Mirrors `LCD::set_cursor`: clamp the row, then send SetDDRAMAddress at
`col + row_offsets[row]` (u8 wrapping addition).  Indexing outside the
row-offset table (only possible through the u8 underflow of the clamp) is a
panic in the source, modelled as `none`. -/
def set_cursor (lcd : LCD) (col row : Nat) : Option (List Ev) :=
  let row := lcd.clamp_row row
  match lcd.row_offsets[row]? with
  | some off => some (lcd.command (Command.set_ddram_address ((col + off) % 256)))
  | none => none

end LCD

/-- Outcome of the fallible construction `LCD::new`: a controller, an error
return, or a process panic. -/
inductive NewResult
  | ok (lcd : LCD)
  | err
  | panicked
deriving DecidableEq

/-- Mirrors the line-request structure of `LCD::new`, with `avail p = false`
meaning the request for pin p fails.  The source requests the data pins
first, panicking (`unwrap`) at a failure; then rs (error propagated with ?),
then rw (panic on failure inside `map`), then enable (error propagated). -/
def LCD.new_checked (pins : Pins) (avail : GpioPin → Bool) : NewResult :=
  if ∃ p ∈ pins.data, p ≠ GpioPin.NONE ∧ avail p = false then NewResult.panicked
  else if avail pins.rs = false then NewResult.err
  else if ∃ p ∈ pins.rw.toList, avail p = false then NewResult.panicked
  else if avail pins.enable = false then NewResult.err
  else NewResult.ok (LCD.new pins)

/-- Concrete 4-bit wiring used in the source documentation examples:
rs = P26, rw absent, enable = P19, data = [NONE, NONE, NONE, NONE, P13, P6, P5, P11]. -/
def pins0 : Pins :=
  { rs := GpioPin.P 26
    rw := none
    enable := GpioPin.P 19
    data := [GpioPin.NONE, GpioPin.NONE, GpioPin.NONE, GpioPin.NONE,
      GpioPin.P 13, GpioPin.P 6, GpioPin.P 5, GpioPin.P 11] }

/-- A freshly constructed controller on the example 4-bit wiring. -/
def lcd0 : LCD := LCD.new pins0

/-- Stated from the claim wording: an enable pulse is ENABLE low, 1 us hold,
ENABLE high, 1 us hold, ENABLE low, 100 us hold. -/
def claim_enable_pulse : List Ev :=
  [Ev.wE false, Ev.sleep 1, Ev.wE true, Ev.sleep 1, Ev.wE false, Ev.sleep 100]

/-- Stated from the claim wording: a 4-bit nibble transfer drives bit i of
the nibble onto data line 4+i, then exactly one enable pulse. -/
def claim_nibble_transfer (nibble : Nat) : List Ev :=
  ((List.range 4).map fun i => Ev.wData (4 + i) (nibble.testBit i)) ++ claim_enable_pulse

/-- Stated from the claim wording: an 8-bit transfer drives bit i of the
byte onto data line i, then exactly one enable pulse. -/
def claim_byte_transfer8 (b : Nat) : List Ev :=
  ((List.range 8).map fun i => Ev.wData i (b.testBit i)) ++ claim_enable_pulse

/-- Stated from the claim wording: every transmission first drives RS to the
requested level and then, when an RW line is bound, drives it low. -/
def claim_send_head (lcd : LCD) (rs : Bool) : List Ev :=
  [Ev.wRS rs] ++ if lcd.rw_bound then [Ev.wRW false] else []

theorem ofVal_and_one (v i : Nat) :
    GpioPinSignal.ofVal ((v >>> i) &&& 0x01) = Nat.testBit v i := by
  rcases Nat.mod_two_eq_zero_or_one (v >>> i) with h | h <;>
    simp [GpioPinSignal.ofVal, Nat.testBit, Nat.and_one_is_mod, Nat.one_and_eq_mod_two, h]

theorem ofVal_shift_mod (v i : Nat) :
    GpioPinSignal.ofVal (v >>> i % 2) = Nat.testBit v i := by
  have h := ofVal_and_one v i
  rwa [Nat.and_one_is_mod] at h

theorem write_4_bits_eq_claim (v : Nat) : write_4_bits v = claim_nibble_transfer v := by
  simp [write_4_bits, claim_nibble_transfer, pulse_enable, claim_enable_pulse,
    ofVal_and_one, ofVal_shift_mod]

theorem write_8_bits_eq_claim (v : Nat) : write_8_bits v = claim_byte_transfer8 v := by
  simp [write_8_bits, claim_byte_transfer8, pulse_enable, claim_enable_pulse,
    ofVal_and_one, ofVal_shift_mod]

theorem send_eq_claim (lcd : LCD) (v : Nat) (rs : Bool) :
    lcd.send v rs =
      claim_send_head lcd rs ++
        (if lcd.display_function.mode = Mode.Bits4 then
          claim_nibble_transfer (v >>> 4) ++ claim_nibble_transfer v
        else
          claim_byte_transfer8 v) := by
  rcases h : lcd.display_function.mode <;>
    simp [LCD.send, claim_send_head, h, write_4_bits_eq_claim, write_8_bits_eq_claim]

/-- Claim C1: transmitting a byte in 4-bit mode emits exactly two nibble
transfers, high nibble (b >>> 4) first, bit i of each nibble on data line
4+i, each followed by exactly one enable pulse; in 8-bit mode exactly one
8-line write (bit i on data line i) followed by one enable pulse; and every
enable pulse is ENABLE low, 1 us, high, 1 us, low, 100 us. -/
theorem c1_send_transfers (lcd : LCD) (b : Nat) (rs : Bool) :
    lcd.send b rs =
      claim_send_head lcd rs ++
        (if lcd.display_function.mode = Mode.Bits4 then
          claim_nibble_transfer (b >>> 4) ++ claim_nibble_transfer b
        else
          claim_byte_transfer8 b) ∧
    pulse_enable = claim_enable_pulse :=
  ⟨send_eq_claim lcd b rs, rfl⟩

/-- Stated from the claim wording: in 4-bit bus mode a command byte travels
as RS low, RW low when bound, then the two nibble transfers. -/
def claim_command4 (lcd : LCD) (b : Nat) : List Ev :=
  claim_send_head lcd false ++ claim_nibble_transfer (b >>> 4) ++ claim_nibble_transfer b

/-- Stated from the claim wording: the full bus sequence emitted by `begin`
in 4-bit mode, expressed over the post-initialization state (which fixes
the authoritative FunctionSet byte and whether an RW line is bound). -/
def claim_begin_trace_4bit (post : LCD) : List Ev :=
  [Ev.sleep 50000, Ev.wRS false, Ev.wE false] ++
    (if post.rw_bound then [Ev.wRW false] else []) ++
  claim_nibble_transfer 0x3 ++ [Ev.sleep 45000] ++
  claim_nibble_transfer 0x3 ++ [Ev.sleep 4500] ++
  claim_nibble_transfer 0x3 ++ [Ev.sleep 150] ++
  claim_nibble_transfer 0x2 ++
  claim_command4 post (Command.function_set post.display_function) ++
  claim_command4 post (Command.display_control
    { display := DisplayState.On, cursor := CursorState.Off, blink := BlinkState.Off }) ++
  claim_command4 post Command.clear_display ++ [Ev.sleep 2000] ++
  claim_command4 post (Command.entry_mode_set
    { entry_mode := DisplayEntryMode.Left, entry_shift_mode := DisplayEntryShiftMode.Decrement })

/-- Claim C2: in 4-bit bus mode, `begin` emits exactly the datasheet
initialization sequence: the 50 ms guard with RS, ENABLE and (if bound) RW
driven low; nibble 0x3 three times with 45 ms, 4.5 ms, 150 us settle
delays; nibble 0x2 committing 4-bit mode; the authoritative FunctionSet;
DisplayControl with (display on, cursor off, blink off); ClearDisplay
followed by a wait of at least 2 ms; and EntryModeSet with (left-to-right,
auto-decrement). -/
theorem c2_begin_4bit (lcd : LCD) (cols lines : Nat) (cs : CharSize)
    (h4 : lcd.display_function.mode = Mode.Bits4) :
    (lcd.begin cols lines cs).2 = claim_begin_trace_4bit (lcd.begin cols lines cs).1 := by
  simp only [LCD.begin, LCD.set_row_offsets, LCD.display, LCD.clear, LCD.command,
    claim_begin_trace_4bit, claim_command4]
  split_ifs with h1 h2 <;>
    simp_all [send_eq_claim, claim_send_head, write_4_bits_eq_claim, h4, List.append_assoc]

theorem c2_begin_4bit_witness :
    lcd0.display_function.mode = Mode.Bits4 ∧
      (lcd0.begin 16 2 CharSize.Dots5x8).2 =
        claim_begin_trace_4bit (lcd0.begin 16 2 CharSize.Dots5x8).1 :=
  ⟨rfl, c2_begin_4bit lcd0 16 2 CharSize.Dots5x8 rfl⟩

/-- The controller of the end-to-end example: 4-bit wiring, 16 columns, 2 lines. -/
def lcdB : LCD := (lcd0.begin 16 2 CharSize.Dots5x8).1

/-- A controller initialized with lines = 0, exercising the set_cursor underflow. -/
def lcdZ : LCD := (lcd0.begin 16 0 CharSize.Dots5x8).1

/-- Claim C3 (amended): after `begin(cols, lines, char_size)` the row-offset
table is exactly [0x00, 0x40, 0x00+cols, 0x40+cols] (u8 wrapping), and with
a 16-column table the DDRAM address encoded for rows 0..3 at column c is
c, 0x40+c, 16+c and 0x50+c respectively. -/
theorem c3_row_offsets (lcd : LCD) (cols lines : Nat) (cs : CharSize) :
    (lcd.begin cols lines cs).1.row_offsets =
      [0x00, 0x40, (0x00 + cols) % 256, (0x40 + cols) % 256] ∧
    (∀ c : Nat,
      ((lcd.begin 16 lines cs).1.row_offsets.getD 0 0) + c = c ∧
      ((lcd.begin 16 lines cs).1.row_offsets.getD 1 0) + c = 0x40 + c ∧
      ((lcd.begin 16 lines cs).1.row_offsets.getD 2 0) + c = 16 + c ∧
      ((lcd.begin 16 lines cs).1.row_offsets.getD 3 0) + c = 0x50 + c) := by
  constructor
  · simp only [LCD.begin, LCD.set_row_offsets, LCD.display]
  · intro c
    refine ⟨?_, ?_, ?_, ?_⟩ <;>
      · simp only [LCD.begin, LCD.set_row_offsets, LCD.display]
        norm_num [List.getD_cons_zero, List.getD_cons_succ]

/-- Claim C3 counterexample: the claim says that with a 16-column table the
DDRAM address for row 3, column c is 0x56+c, but begin(16, ...) puts
0x40+16 = 0x50 in the table, so row 3, column 0 encodes 0x80 ||| 0x50 =
0xD0, not 0x80 ||| 0x56 = 0xD6. -/
theorem c3_counterexample :
    Command.set_ddram_address
        (((lcd0.begin 16 2 CharSize.Dots5x8).1.row_offsets.getD 3 0) + 0) = 0xD0 ∧
      (0xD0 : Nat) ≠ Command.set_ddram_address (0x56 + 0) := by
  constructor
  · rfl
  · decide

theorem clamp_row_eq (lcd : LCD) (row : Nat) (hlen : lcd.row_offsets.length = 4)
    (h1 : 1 ≤ lcd.num_lines) :
    lcd.clamp_row row = min row (min (lcd.row_offsets.length - 1) (lcd.num_lines - 1)) := by
  simp only [LCD.clamp_row, hlen]
  split_ifs <;> omega

/-- Claim C4: `set_cursor(col, row)` clamps the row to
min(row, rowOffsets.len()-1, lineCount-1) and sends a single SetDDRAMAddress
command with operand rowOffsets[clamped row] + col (u8 addition), never
signalling an error for an over-range row and never validating col; with
lineCount = 2 the call with row = 5 encodes the same byte as row = 1. -/
theorem c4_set_cursor_clamp (lcd : LCD) (col row : Nat)
    (hlen : lcd.row_offsets.length = 4) (h1 : 1 ≤ lcd.num_lines) :
    lcd.set_cursor col row =
      some (lcd.command (Command.set_ddram_address
        ((col + lcd.row_offsets.getD
          (min row (min (lcd.row_offsets.length - 1) (lcd.num_lines - 1))) 0) % 256))) ∧
    (lcd.num_lines = 2 → lcd.set_cursor col 5 = lcd.set_cursor col 1) := by
  constructor
  · have hc := clamp_row_eq lcd row hlen h1
    have hidx : min row (min (lcd.row_offsets.length - 1) (lcd.num_lines - 1)) <
        lcd.row_offsets.length := by omega
    simp only [LCD.set_cursor, hc, List.getElem?_eq_getElem hidx,
      List.getD_eq_getElem?_getD, Option.getD_some]
  · intro h2
    simp only [LCD.set_cursor, clamp_row_eq lcd 5 hlen h1, clamp_row_eq lcd 1 hlen h1, h2, hlen]
    norm_num

theorem c4_set_cursor_clamp_witness :
    lcdB.row_offsets.length = 4 ∧ 1 ≤ lcdB.num_lines ∧
      lcdB.set_cursor 0 5 = lcdB.set_cursor 0 1 :=
  ⟨by decide, by decide,
    (c4_set_cursor_clamp lcdB 0 5 (by decide) (by decide)).2 (by decide)⟩

/-- Claim C10: with num_lines = 0 (begin called with lines = 0) every row
reaches the u8 underflow num_lines - 1, which wraps to 255 and makes
set_cursor fail (out-of-range row-offset index); set_cursor is total
exactly when num_lines is at least 1. -/
theorem c10_set_cursor_underflow (lcd : LCD) (hlen : lcd.row_offsets.length = 4) :
    (lcd.num_lines = 0 →
      ∀ col row : Nat, lcd.clamp_row row = 255 ∧ lcd.set_cursor col row = none) ∧
    ((∀ col row : Nat, (lcd.set_cursor col row).isSome = true) ↔ 1 ≤ lcd.num_lines) := by
  have hz : lcd.num_lines = 0 → ∀ row : Nat, lcd.clamp_row row = 255 := by
    intro h0 row
    simp [LCD.clamp_row, h0]
  have hznone : lcd.num_lines = 0 → ∀ col row : Nat, lcd.set_cursor col row = none := by
    intro h0 col row
    have h255 : lcd.row_offsets[lcd.clamp_row row]? = none := by
      rw [hz h0 row]
      exact List.getElem?_eq_none (by omega)
    simp only [LCD.set_cursor, h255]
  constructor
  · intro h0 col row
    exact ⟨hz h0 row, hznone h0 col row⟩
  · constructor
    · intro hall
      by_contra hlt
      have h0 : lcd.num_lines = 0 := by omega
      have := hall 0 0
      rw [hznone h0 0 0] at this
      simp at this
    · intro h1 col row
      have hc := clamp_row_eq lcd row hlen h1
      have hidx : lcd.clamp_row row < lcd.row_offsets.length := by omega
      simp only [LCD.set_cursor, List.getElem?_eq_getElem hidx, Option.isSome_some]

theorem c10_set_cursor_underflow_witness :
    lcdZ.row_offsets.length = 4 ∧ lcdZ.set_cursor 0 0 = none :=
  ⟨by decide, ((c10_set_cursor_underflow lcdZ (by decide)).1 (by decide) 0 0).2⟩

/-- Claim C5: for all 8 DisplayControl states the encoded command byte is
0x08 plus an independent 0x04 display bit, 0x02 cursor bit and 0x01 blink
bit; and each of the six toggles changes exactly one field of the state and
re-sends the whole DisplayControl command for the updated state. -/
theorem c5_display_control :
    (∀ dc : DisplayControl,
      Command.display_control dc =
        0x08 + (if dc.display = DisplayState.On then 0x04 else 0x00) +
          (if dc.cursor = CursorState.On then 0x02 else 0x00) +
          (if dc.blink = BlinkState.On then 0x01 else 0x00)) ∧
    (∀ lcd : LCD,
      ((lcd.display).1 =
          { lcd with display_control := { lcd.display_control with display := DisplayState.On } } ∧
        (lcd.display).2 =
          (lcd.display).1.command (Command.display_control (lcd.display).1.display_control)) ∧
      ((lcd.no_display).1 =
          { lcd with display_control := { lcd.display_control with display := DisplayState.Off } } ∧
        (lcd.no_display).2 =
          (lcd.no_display).1.command (Command.display_control (lcd.no_display).1.display_control)) ∧
      ((lcd.cursor).1 =
          { lcd with display_control := { lcd.display_control with cursor := CursorState.On } } ∧
        (lcd.cursor).2 =
          (lcd.cursor).1.command (Command.display_control (lcd.cursor).1.display_control)) ∧
      ((lcd.no_cursor).1 =
          { lcd with display_control := { lcd.display_control with cursor := CursorState.Off } } ∧
        (lcd.no_cursor).2 =
          (lcd.no_cursor).1.command (Command.display_control (lcd.no_cursor).1.display_control)) ∧
      ((lcd.blink).1 =
          { lcd with display_control := { lcd.display_control with blink := BlinkState.On } } ∧
        (lcd.blink).2 =
          (lcd.blink).1.command (Command.display_control (lcd.blink).1.display_control)) ∧
      ((lcd.no_blink).1 =
          { lcd with display_control := { lcd.display_control with blink := BlinkState.Off } } ∧
        (lcd.no_blink).2 =
          (lcd.no_blink).1.command (Command.display_control (lcd.no_blink).1.display_control))) := by
  constructor
  · intro dc
    rcases dc with ⟨d, c, b⟩
    cases d <;> cases c <;> cases b <;> rfl
  · intro lcd
    exact ⟨⟨rfl, rfl⟩, ⟨rfl, rfl⟩, ⟨rfl, rfl⟩, ⟨rfl, rfl⟩, ⟨rfl, rfl⟩, ⟨rfl, rfl⟩⟩

theorem begin_char_size (lcd : LCD) (cols lines : Nat) (cs : CharSize) :
    (lcd.begin cols lines cs).1.display_function.char_size =
      if cs ≠ CharSize.Dots5x8 ∧ lines = 1 then CharSize.Dots5x10
      else lcd.display_function.char_size := by
  simp only [LCD.begin, LCD.set_row_offsets, LCD.display]
  split_ifs <;> rfl

/-- Claim C6 (amended): a requested 5x10 matrix is applied only when the
lines argument is 1, but otherwise begin keeps the previously configured
matrix (it never forces 5x8 back); from a freshly constructed controller a
single begin yields 5x10 exactly when 5x10 was requested with lines = 1,
while repeated begins can leave 5x10 configured together with 2-line mode. -/
theorem c6_char_size_honored (lcd : LCD) (cols lines : Nat) (cs : CharSize) :
    ((lcd.begin cols lines cs).1.display_function.char_size =
      if cs ≠ CharSize.Dots5x8 ∧ lines = 1 then CharSize.Dots5x10
      else lcd.display_function.char_size) ∧
    (∀ pins : Pins, ∀ c l : Nat, ∀ s : CharSize,
      ((LCD.new pins).begin c l s).1.display_function.char_size = CharSize.Dots5x10 ↔
        (s = CharSize.Dots5x10 ∧ l = 1)) := by
  refine ⟨begin_char_size lcd cols lines cs, ?_⟩
  intro pins c l s
  rw [begin_char_size]
  have hnew : (LCD.new pins).display_function.char_size = CharSize.Dots5x8 := by
    simp [LCD.new]
  rw [hnew]
  cases s <;> by_cases hl : l = 1 <;> simp [hl]

/-- A controller re-initialized after a 1-line 5x10 begin: the second begin
requests 2 lines with 5x8 but the 5x10 matrix stays configured. -/
def lcdRe : LCD := ((lcd0.begin 16 1 CharSize.Dots5x10).1.begin 16 2 CharSize.Dots5x8).1

/-- Claim C6 counterexample: after begin(16, 1, 5x10) followed by
begin(16, 2, 5x8), the configured CharacterMatrix is still 5x10 while the
configured LineCount is 2: the invariant in the claim fails under repeated
calls to begin. -/
theorem c6_counterexample :
    lcdRe.display_function.char_size = CharSize.Dots5x10 ∧
      lcdRe.num_lines = 2 ∧ lcdRe.display_function.lines = Lines.Lines2 :=
  ⟨rfl, rfl, rfl⟩

/-- Claim C7: construction selects 4-bit mode exactly when data pin index 0
is NONE (and 8-bit mode when it is bound), and no state-returning public
operation (begin or any toggle) ever changes the bus-width field. -/
theorem c7_bus_width_fixed :
    (∀ pins : Pins,
      ((LCD.new pins).display_function.mode = Mode.Bits4 ↔
        pins.data.getD 0 GpioPin.NONE = GpioPin.NONE) ∧
      ((LCD.new pins).display_function.mode = Mode.Bits8 ↔
        pins.data.getD 0 GpioPin.NONE ≠ GpioPin.NONE)) ∧
    (∀ (lcd : LCD) (cols lines : Nat) (cs : CharSize),
      (lcd.begin cols lines cs).1.display_function.mode = lcd.display_function.mode) ∧
    (∀ lcd : LCD,
      (lcd.display).1.display_function.mode = lcd.display_function.mode ∧
      (lcd.no_display).1.display_function.mode = lcd.display_function.mode ∧
      (lcd.cursor).1.display_function.mode = lcd.display_function.mode ∧
      (lcd.no_cursor).1.display_function.mode = lcd.display_function.mode ∧
      (lcd.blink).1.display_function.mode = lcd.display_function.mode ∧
      (lcd.no_blink).1.display_function.mode = lcd.display_function.mode ∧
      (lcd.left_to_right).1.display_function.mode = lcd.display_function.mode ∧
      (lcd.right_to_left).1.display_function.mode = lcd.display_function.mode ∧
      (lcd.autoscroll).1.display_function.mode = lcd.display_function.mode ∧
      (lcd.no_autscroll).1.display_function.mode = lcd.display_function.mode) := by
  refine ⟨?_, ?_, ?_⟩
  · intro pins
    constructor <;> constructor <;> intro h <;>
      · simp only [LCD.new] at *
        split_ifs at * <;> simp_all
  · intro lcd cols lines cs
    simp only [LCD.begin, LCD.set_row_offsets, LCD.display]
    split_ifs <;> rfl
  · intro lcd
    exact ⟨rfl, rfl, rfl, rfl, rfl, rfl, rfl, rfl, rfl, rfl⟩

theorem and_seven_eq_mod (x : Nat) : x &&& 7 = x % 8 := by
  have h := Nat.and_pow_two_sub_one_eq_mod x 3
  norm_num at h
  exact h

/-- Claim C8: create_char masks the slot to its low 3 bits, sends one
SetCGRAMAddress command with operand (slot & 0x7) << 3, then writes the 8
bitmap bytes as 8 consecutive data bytes in array order; masking wraps, so
slot 9 transmits identically to slot 1 and in general slot behaves as
slot % 8. -/
theorem c8_create_char (lcd : LCD) (slot : Nat) (b0 b1 b2 b3 b4 b5 b6 b7 : Nat) :
    lcd.create_char slot [b0, b1, b2, b3, b4, b5, b6, b7] =
      lcd.command (Command.set_cgram_address ((slot &&& 0x7) <<< 3)) ++
        lcd.write b0 ++ lcd.write b1 ++ lcd.write b2 ++ lcd.write b3 ++
        lcd.write b4 ++ lcd.write b5 ++ lcd.write b6 ++ lcd.write b7 ∧
    (∀ cm : List Nat, lcd.create_char slot cm = lcd.create_char (slot % 8) cm) ∧
    (∀ cm : List Nat, lcd.create_char 9 cm = lcd.create_char 1 cm) := by
  refine ⟨?_, ?_, ?_⟩
  · simp [LCD.create_char, List.append_assoc]
  · intro cm
    have h : slot &&& 0x7 = (slot % 8) &&& 0x7 := by
      rw [and_seven_eq_mod, and_seven_eq_mod]
      omega
    simp [LCD.create_char, h]
  · intro cm
    have h : (9 : Nat) &&& 0x7 = 1 &&& 0x7 := by decide
    simp [LCD.create_char, h]

/-- All bound lines of the descriptor can be requested successfully. -/
def binds_ok (pins : Pins) (avail : GpioPin → Bool) : Prop :=
  (∀ p ∈ pins.data, p ≠ GpioPin.NONE → avail p = true) ∧
  avail pins.rs = true ∧
  (∀ p ∈ pins.rw.toList, avail p = true) ∧
  avail pins.enable = true

instance (pins : Pins) (avail : GpioPin → Bool) : Decidable (binds_ok pins avail) := by
  unfold binds_ok
  infer_instance

/-- Claim C9 (amended): if requesting any bound line fails, construction
fails as a whole and no partial controller is returned; the failure
surfaces as a returned error when the RS or ENABLE request fails and as a
panic when a data-line or RW request fails. -/
theorem c9_new_fails_whole (pins : Pins) (avail : GpioPin → Bool) :
    (LCD.new_checked pins avail = NewResult.ok (LCD.new pins) ↔ binds_ok pins avail) ∧
    (¬ binds_ok pins avail →
      LCD.new_checked pins avail = NewResult.err ∨
        LCD.new_checked pins avail = NewResult.panicked) ∧
    (LCD.new_checked pins avail = NewResult.err →
      avail pins.rs = false ∨ avail pins.enable = false) ∧
    (LCD.new_checked pins avail = NewResult.panicked →
      (∃ p ∈ pins.data, p ≠ GpioPin.NONE ∧ avail p = false) ∨
        (∃ p ∈ pins.rw.toList, avail p = false)) := by
  unfold LCD.new_checked binds_ok
  split_ifs with h1 h2 h3 h4 <;>
    constructor <;>
      simp_all [Bool.not_eq_true]

/-- Input on which the claim fails: the request for the bound data line P13
fails, making construction panic rather than return an error. -/
def avail_no13 : GpioPin → Bool := fun p => !(p == GpioPin.P 13)

/-- Claim C9 counterexample: with the example 4-bit wiring and a failing
request for data pin P13 (a bound line), LCD::new panics (unwrap) instead
of returning an error, so the claim that it fails by returning an error is
false; no controller is produced either way. -/
theorem c9_counterexample :
    (∃ p ∈ pins0.data, p ≠ GpioPin.NONE ∧ avail_no13 p = false) ∧
      LCD.new_checked pins0 avail_no13 = NewResult.panicked ∧
      NewResult.panicked ≠ NewResult.err := by
  refine ⟨?_, ?_, ?_⟩ <;> decide

theorem c9_new_fails_whole_witness :
    ¬ binds_ok pins0 avail_no13 ∧
      (LCD.new_checked pins0 avail_no13 = NewResult.err ∨
        LCD.new_checked pins0 avail_no13 = NewResult.panicked) :=
  ⟨by decide, (c9_new_fails_whole pins0 avail_no13).2.1 (by decide)⟩

end RpiLcd
